import Mathlib

/-!
Shallow embedding of the kiosk telemetry service (`src/index.js`).

The service has three Express routes:
  * `POST /log`  — validates that `screen`, `action`, `timestamp`, `kioskId`
    are all truthy, then runs a parameterized
    `INSERT INTO interactions (screen, action, timestamp, kiosk_id)
     VALUES ($1, $2, $3, $4)` with those four values, answering
    200 `{message: "Interaction logged"}` on success,
    400 `{error: "Missing required fields"}` on validation failure, and
    500 `{error: "Database error"}` (after `console.error`) on a storage error.
  * `GET /` — replies with the fixed text `Kiosk API is running`.
  * `GET /all` — runs
    `SELECT i.*, k.friendly_name FROM interactions i
     LEFT JOIN kiosk_locations k ON i.kiosk_id = k.kiosk_id
     ORDER BY i.timestamp DESC LIMIT 100`
    and replies 200 with the rows, or
    500 `{error: "Failed to fetch logs"}` (after `console.error`) on a
    storage error.

JSON scalar values are modelled by `JVal`; a request body is an association
list of property names to values (JavaScript object destructuring of a
missing property yields a falsy value, modelled by `jNull`).  The database
round trip can fail; the failure outcome of each `db.query` call is an
explicit `Option String` input (`none` = success, `some e` = the raised
error `e`), so handlers are total functions from request, failure outcome
and current store to response, new store and console output.
-/

/-- JSON scalar values as they appear in request bodies and table columns. -/
inductive JVal where
  | jNull : JVal
  | jBool : Bool → JVal
  | jNum : Int → JVal
  | jStr : String → JVal
deriving DecidableEq, Repr

open JVal

/-- JavaScript truthiness of a value: `null`/`undefined`, `false`, `0` and
the empty string are falsy, everything else is truthy. -/
def truthy : JVal → Bool
  | jNull => false
  | jBool b => b
  | jNum n => decide (n ≠ 0)
  | jStr s => decide (s ≠ "")

/-- A request body: a JSON object, as an association list from property
names to scalar values. -/
abbrev ReqBody := List (String × JVal)

/-- Reading a property off the body, as destructuring does: a missing
property reads as a falsy `undefined`, modelled by `jNull`. -/
def getField (body : ReqBody) (k : String) : JVal :=
  match List.lookup k body with
  | some v => v
  | none => jNull

/-- A row of the `interactions` table, columns in declaration order
`(screen, action, timestamp, kiosk_id)`. -/
structure InteractionRow where
  screen : JVal
  action : JVal
  timestamp : JVal
  kiosk_id : JVal
deriving DecidableEq, Repr

/-- The `interactions` table contents, oldest first. -/
abbrev InteractionStore := List InteractionRow

/-- A row of the external `kiosk_locations` table. -/
structure KioskLocation where
  kiosk_id : JVal
  friendly_name : JVal
deriving DecidableEq, Repr

/-- A row produced by the listing query `SELECT i.*, k.friendly_name ...`:
all columns of the interaction plus the joined friendly name, `none`
standing for SQL `NULL` on an unmatched left join. -/
structure OutRow where
  screen : JVal
  action : JVal
  timestamp : JVal
  kiosk_id : JVal
  friendly_name : Option JVal
deriving DecidableEq, Repr

/-- Response bodies the service produces: `res.send` text, a one-field
JSON object (`res.json({...})`), or a JSON array of result rows. -/
inductive RespBody where
  | text : String → RespBody
  | obj : String → String → RespBody
  | rows : List OutRow → RespBody
deriving DecidableEq, Repr

/-- An HTTP response: status code and body. -/
structure HttpResponse where
  status : Nat
  body : RespBody
deriving DecidableEq, Repr

/-- Modelled from the spec: `src/db.js` (the Storage Adapter) is not under
`src/`; per the spec it "accepts a SQL text template with positional
parameter placeholders and an ordered list of parameter values", executes
with a "single attempt, fail fast" and "no partial-failure handling".
This is its effect for the ingestion statement
`INSERT INTO interactions (screen, action, timestamp, kiosk_id)
 VALUES ($1, $2, $3, $4)`: with exactly four bound parameters it appends
one row whose columns take the parameters in order; on failure it raises
the storage error and leaves the table unchanged (the caller keeps the
store it passed in). -/
def insertInteraction (failure : Option String) (params : List JVal)
    (store : InteractionStore) : Except String InteractionStore :=
  match failure with
  | some e => .error e
  | none =>
    match params with
    | [s, a, t, k] =>
      .ok (List.append store [{ screen := s, action := a, timestamp := t, kiosk_id := k }])
    | _ => .error "bind message supplies wrong number of parameters"

/-- All rows of `kiosk_locations` whose `kiosk_id` equals the given one. -/
def matchingLocations (locs : List KioskLocation) (kid : JVal) : List KioskLocation :=
  locs.filter (fun l => decide (l.kiosk_id = kid))

/-- `LEFT JOIN kiosk_locations k ON i.kiosk_id = k.kiosk_id` applied to one
interaction row: one output row per matching location, or a single row
with a `NULL` friendly name when nothing matches. -/
def leftJoinRow (locs : List KioskLocation) (i : InteractionRow) : List OutRow :=
  match matchingLocations locs i.kiosk_id with
  | [] => [{ screen := i.screen, action := i.action, timestamp := i.timestamp,
             kiosk_id := i.kiosk_id, friendly_name := none }]
  | ms => ms.map (fun l => { screen := i.screen, action := i.action,
                             timestamp := i.timestamp, kiosk_id := i.kiosk_id,
                             friendly_name := some l.friendly_name })

/-- The join of the two tables, every interaction against its matches. -/
def leftJoin (ints : List InteractionRow) (locs : List KioskLocation) : List OutRow :=
  ints.flatMap (leftJoinRow locs)

/-- A total boolean order on column values, standing for the database
collation used by `ORDER BY`: values are compared within a type (Booleans,
integers numerically, strings lexicographically) and across types by a
fixed tag order. -/
def jle : JVal → JVal → Bool
  | jNull, _ => true
  | _, jNull => false
  | jBool a, jBool b => !a || b
  | jBool _, _ => true
  | _, jBool _ => false
  | jNum a, jNum b => decide (a ≤ b)
  | jNum _, _ => true
  | _, jNum _ => false
  | jStr a, jStr b => decide (a ≤ b)

/-- Descending insertion by `timestamp`: the new row goes in front of the
first row whose timestamp it dominates. -/
def insertByTsDesc (r : OutRow) : List OutRow → List OutRow
  | [] => [r]
  | x :: xs =>
    if jle x.timestamp r.timestamp then r :: x :: xs
    else x :: insertByTsDesc r xs

/-- `ORDER BY i.timestamp DESC`: sort the joined rows by timestamp,
largest first. -/
def sortByTsDesc (rs : List OutRow) : List OutRow :=
  rs.foldr insertByTsDesc []

/-- The result set of the listing query: join, order by timestamp
descending, `LIMIT 100`. -/
def selectRecent (ints : List InteractionRow) (locs : List KioskLocation) : List OutRow :=
  (sortByTsDesc (leftJoin ints locs)).take 100

/-- State visible to the service: the `interactions` table it writes and
the external `kiosk_locations` table it only reads. -/
structure ServiceState where
  interactions : List InteractionRow
  kiosk_locations : List KioskLocation
deriving DecidableEq, Repr

/-- An inbound request to one of the three routes.  Requests that reach
the database carry the failure outcome of that `db.query` call. -/
inductive Request where
  | postLog (body : ReqBody) (dbFailure : Option String)
  | getRoot
  | getAll (dbFailure : Option String)

/-- Outcome of handling one request: the HTTP response, the state after
the request, and everything written to the error console. -/
structure Outcome where
  response : HttpResponse
  state : ServiceState
  consoleErrors : List String
deriving DecidableEq, Repr

/-- The `POST /log` handler: destructure the four fields, reject with
400 when any is falsy, otherwise run the parameterized insert with the
values bound in the order screen, action, timestamp, kioskId, answering
200 on success and 500 (with the error logged) on storage failure. -/
def postLog (body : ReqBody) (dbFailure : Option String) (st : ServiceState) : Outcome :=
  let screen := getField body "screen"
  let action := getField body "action"
  let timestamp := getField body "timestamp"
  let kioskId := getField body "kioskId"
  if !truthy screen || !truthy action || !truthy timestamp || !truthy kioskId then
    { response := { status := 400, body := .obj "error" "Missing required fields" },
      state := st, consoleErrors := [] }
  else
    match insertInteraction dbFailure [screen, action, timestamp, kioskId] st.interactions with
    | .ok ints =>
      { response := { status := 200, body := .obj "message" "Interaction logged" },
        state := { st with interactions := ints }, consoleErrors := [] }
    | .error e =>
      { response := { status := 500, body := .obj "error" "Database error" },
        state := st, consoleErrors := [e] }

/-- The `GET /` handler: fixed text, no state change, nothing logged. -/
def getRoot (st : ServiceState) : Outcome :=
  { response := { status := 200, body := .text "Kiosk API is running" },
    state := st, consoleErrors := [] }

/-- The characters standing between the opening and closing single quote
of the `db.query(...)` argument in the `GET /all` handler, exactly as the
source file writes them: the literal runs across five source lines, so
its body contains four raw newline characters. -/
def listingQueryLiteral : String :=
  " SELECT i.*, k.friendly_name\n      FROM interactions i\n      LEFT JOIN kiosk_locations k ON i.kiosk_id = k.kiosk_id\n      ORDER BY i.timestamp DESC\n      LIMIT 100"

/-- Whether a string holds a raw LF or CR character.  ECMAScript forbids
an unescaped line terminator inside a single-quoted string literal, so a
literal whose body satisfies this predicate is a SyntaxError and the
module containing it fails to parse. -/
def hasRawLineTerminator (s : String) : Bool :=
  s.data.contains (Char.ofNat 10) || s.data.contains (Char.ofNat 13)

/-- Modelled from the spec: the `GET /all` handler as the source writes it
cannot run — its SQL is the single-quoted literal `listingQueryLiteral`,
whose raw newlines are a JavaScript SyntaxError, so the module fails to
load and the route never executes.  The spec is plainly the intent (a
single query joined with kiosk metadata, newest first, limited to 100,
answering 200 with the rows or 500 `{error: "Failed to fetch logs"}` with
the error logged on storage failure), and this definition follows those
words; the defect itself is recorded by `hasRawLineTerminator`. -/
def getAll (dbFailure : Option String) (st : ServiceState) : Outcome :=
  match dbFailure with
  | some e =>
    { response := { status := 500, body := .obj "error" "Failed to fetch logs" },
      state := st, consoleErrors := [e] }
  | none =>
    { response := { status := 200,
                    body := .rows (selectRecent st.interactions st.kiosk_locations) },
      state := st, consoleErrors := [] }

/-- Dispatch of one request to its route handler. -/
def handle (req : Request) (st : ServiceState) : Outcome :=
  match req with
  | .postLog body dbFailure => postLog body dbFailure st
  | .getRoot => getRoot st
  | .getAll dbFailure => getAll dbFailure st

/-- The state after a whole sequence of requests, each handled from the
state the previous one left. -/
def runRequests (reqs : List Request) (st : ServiceState) : ServiceState :=
  match reqs with
  | [] => st
  | r :: rs => runRequests rs (handle r st).state

/-! ### Claim theorems: health check and ingestion -/

/-- C8: every `GET /` request yields HTTP 200 with the fixed plain-text
body "Kiosk API is running", leaves the state untouched (no storage access
or other side effect) and logs nothing, from every starting state: the
handler is a total function and cannot fail. -/
theorem getRoot_health_check (st : ServiceState) :
    handle .getRoot st =
      { response := { status := 200, body := .text "Kiosk API is running" },
        state := st, consoleErrors := [] } := rfl

/-- C1: a `POST /log` body whose four fields `screen`, `action`,
`timestamp`, `kioskId` are all truthy, with the storage call succeeding,
gets HTTP 200 with body `{message: "Interaction logged"}`, and exactly one
row holding exactly those four submitted values (bound in the order
screen, action, timestamp, kiosk_id) is appended to `interactions`. -/
theorem postLog_success_inserts_row (body : ReqBody) (st : ServiceState)
    (hs : truthy (getField body "screen") = true)
    (ha : truthy (getField body "action") = true)
    (ht : truthy (getField body "timestamp") = true)
    (hk : truthy (getField body "kioskId") = true) :
    handle (.postLog body none) st =
      { response := { status := 200, body := .obj "message" "Interaction logged" },
        state := { st with interactions := st.interactions ++
          [{ screen := getField body "screen", action := getField body "action",
             timestamp := getField body "timestamp",
             kiosk_id := getField body "kioskId" }] },
        consoleErrors := [] } := by
  simp [handle, postLog, hs, ha, ht, hk, insertInteraction]

/-- Witness for C1: the spec scenario body
`{screen: "home", action: "tap", timestamp: "2024-01-01T00:00:00Z", kioskId: "k1"}`
is accepted and persisted as one row. -/
theorem postLog_success_inserts_row_witness :
    handle (.postLog [("screen", jStr "home"), ("action", jStr "tap"),
        ("timestamp", jStr "2024-01-01T00:00:00Z"), ("kioskId", jStr "k1")] none)
      { interactions := [], kiosk_locations := [] } =
      { response := { status := 200, body := .obj "message" "Interaction logged" },
        state := { interactions := [{ screen := jStr "home", action := jStr "tap",
                                      timestamp := jStr "2024-01-01T00:00:00Z",
                                      kiosk_id := jStr "k1" }],
                   kiosk_locations := [] },
        consoleErrors := [] } := by
  simpa using postLog_success_inserts_row
    [("screen", jStr "home"), ("action", jStr "tap"),
     ("timestamp", jStr "2024-01-01T00:00:00Z"), ("kioskId", jStr "k1")]
    { interactions := [], kiosk_locations := [] }
    (by decide) (by decide) (by decide) (by decide)

/-- C2: a `POST /log` body missing any one of the four required
properties gets HTTP 400 with body `{error: "Missing required fields"}`,
whatever the storage layer would have done, and the state is unchanged:
no row is written. -/
theorem postLog_missing_field_rejected (body : ReqBody) (f : Option String)
    (st : ServiceState)
    (h : List.lookup "screen" body = none ∨ List.lookup "action" body = none ∨
         List.lookup "timestamp" body = none ∨ List.lookup "kioskId" body = none) :
    handle (.postLog body f) st =
      { response := { status := 400, body := .obj "error" "Missing required fields" },
        state := st, consoleErrors := [] } := by
  rcases h with h | h | h | h <;> simp [handle, postLog, getField, h, truthy]

/-- Witness for C2: the spec scenario body `{screen: "home", action: "tap"}`
(missing `timestamp` and `kioskId`) is rejected with 400 and writes nothing. -/
theorem postLog_missing_field_rejected_witness :
    handle (.postLog [("screen", jStr "home"), ("action", jStr "tap")] none)
      { interactions := [], kiosk_locations := [] } =
      { response := { status := 400, body := .obj "error" "Missing required fields" },
        state := { interactions := [], kiosk_locations := [] },
        consoleErrors := [] } :=
  postLog_missing_field_rejected [("screen", jStr "home"), ("action", jStr "tap")]
    none { interactions := [], kiosk_locations := [] }
    (Or.inr (Or.inr (Or.inl (by decide))))

/-- C4: a `POST /log` body with all four fields truthy whose storage call
fails gets HTTP 500 with body `{error: "Database error"}`, the underlying
error is logged to the console, and the `interactions` table is left
exactly as it was: no partial row is written. -/
theorem postLog_storage_failure (body : ReqBody) (e : String) (st : ServiceState)
    (hs : truthy (getField body "screen") = true)
    (ha : truthy (getField body "action") = true)
    (ht : truthy (getField body "timestamp") = true)
    (hk : truthy (getField body "kioskId") = true) :
    handle (.postLog body (some e)) st =
      { response := { status := 500, body := .obj "error" "Database error" },
        state := st, consoleErrors := [e] } := by
  simp [handle, postLog, hs, ha, ht, hk, insertInteraction]

/-- Witness for C4: a valid body whose insert raises "connection refused"
gets the 500 response, the error logged, and an unchanged store. -/
theorem postLog_storage_failure_witness :
    handle (.postLog [("screen", jStr "home"), ("action", jStr "tap"),
        ("timestamp", jStr "2024-01-01T00:00:00Z"), ("kioskId", jStr "k1")]
        (some "connection refused"))
      { interactions := [], kiosk_locations := [] } =
      { response := { status := 500, body := .obj "error" "Database error" },
        state := { interactions := [], kiosk_locations := [] },
        consoleErrors := ["connection refused"] } :=
  postLog_storage_failure
    [("screen", jStr "home"), ("action", jStr "tap"),
     ("timestamp", jStr "2024-01-01T00:00:00Z"), ("kioskId", jStr "k1")]
    "connection refused" { interactions := [], kiosk_locations := [] }
    (by decide) (by decide) (by decide) (by decide)

/-- C6 (code bug in the `GET /all` route): the route's SQL is a
single-quoted literal holding raw newlines — a JavaScript SyntaxError, so
the module never loads and the handler as written produces no response at
all; against the intended handler modelled from the spec the claimed
behaviour does hold: a request whose query fails gets HTTP 500 with body
`{error: "Failed to fetch logs"}`, a successful one gets HTTP 200 with the
result rows as a JSON array, which is empty when the store holds no
events. -/
theorem getAll_success_and_failure :
    hasRawLineTerminator listingQueryLiteral = true ∧
    (∀ (e : String) (st : ServiceState), handle (.getAll (some e)) st =
        { response := { status := 500, body := .obj "error" "Failed to fetch logs" },
          state := st, consoleErrors := [e] }) ∧
    (∀ st : ServiceState, handle (.getAll none) st =
        { response := { status := 200,
                        body := .rows (selectRecent st.interactions st.kiosk_locations) },
          state := st, consoleErrors := [] }) ∧
    (∀ locs : List KioskLocation, selectRecent [] locs = []) :=
  ⟨by decide, fun _ _ => rfl, fun _ => rfl, fun _ => rfl⟩

/-! ### Order lemmas for the listing query -/

/-- Totality of the column collation: any two values compare. -/
theorem jle_total (a b : JVal) : jle a b = true ∨ jle b a = true := by
  cases a <;> cases b <;>
    first
      | exact Or.inl rfl
      | exact Or.inr rfl
      | (simp only [jle, decide_eq_true_eq]; exact le_total _ _)
      | (rename_i x y; revert x y; decide)

/-- Transitivity of the column collation. -/
theorem jle_trans {a b c : JVal} (h1 : jle a b = true) (h2 : jle b c = true) :
    jle a c = true := by
  cases a <;> cases b <;> cases c <;>
      simp only [jle, decide_eq_true_eq] at h1 h2 ⊢ <;>
    first
      | rfl
      | exact Bool.noConfusion h1
      | exact Bool.noConfusion h2
      | exact le_trans h1 h2
      | (rename_i x y z; revert x y z; decide)

/-- Descending insertion inserts and keeps everything else. -/
theorem mem_insertByTsDesc {x r : OutRow} {l : List OutRow} :
    x ∈ insertByTsDesc r l ↔ x = r ∨ x ∈ l := by
  induction l with
  | nil => simp [insertByTsDesc]
  | cons y ys ih =>
    by_cases h : jle y.timestamp r.timestamp = true
    · simp [insertByTsDesc, h]
    · simp only [insertByTsDesc, if_neg h, List.mem_cons, ih]
      tauto

/-- Rows pairwise in weakly decreasing timestamp order, head largest. -/
def TsSortedDesc (rs : List OutRow) : Prop :=
  List.Pairwise (fun a b => jle b.timestamp a.timestamp = true) rs

/-- Descending insertion into a descending-sorted list stays sorted. -/
theorem tsSortedDesc_insertByTsDesc {r : OutRow} {l : List OutRow}
    (hl : TsSortedDesc l) : TsSortedDesc (insertByTsDesc r l) := by
  induction l with
  | nil => simp [insertByTsDesc, TsSortedDesc]
  | cons y ys ih =>
    rcases List.pairwise_cons.mp hl with ⟨hy, hys⟩
    by_cases h : jle y.timestamp r.timestamp = true
    · unfold TsSortedDesc
      rw [insertByTsDesc, if_pos h]
      refine List.pairwise_cons.mpr ⟨?_, hl⟩
      intro z hz
      rcases List.mem_cons.mp hz with rfl | hz
      · exact h
      · exact jle_trans (hy z hz) h
    · unfold TsSortedDesc
      rw [insertByTsDesc, if_neg h]
      refine List.pairwise_cons.mpr ⟨?_, ih hys⟩
      intro z hz
      rcases mem_insertByTsDesc.mp hz with rfl | hz
      · rcases jle_total y.timestamp z.timestamp with ht | ht
        · exact absurd ht h
        · exact ht
      · exact hy z hz

/-- The sort used for `ORDER BY i.timestamp DESC` produces a
descending-sorted list. -/
theorem tsSortedDesc_sortByTsDesc (rs : List OutRow) : TsSortedDesc (sortByTsDesc rs) := by
  induction rs with
  | nil => exact List.Pairwise.nil
  | cons r rs ih => exact tsSortedDesc_insertByTsDesc ih

/-- Sorting neither adds nor removes rows (as sets). -/
theorem mem_sortByTsDesc {x : OutRow} {rs : List OutRow} :
    x ∈ sortByTsDesc rs ↔ x ∈ rs := by
  induction rs with
  | nil => exact Iff.rfl
  | cons r rs ih =>
    show x ∈ insertByTsDesc r (sortByTsDesc rs) ↔ _
    rw [mem_insertByTsDesc, ih]
    simp

/-- C3 (code bug in the `GET /all` route): the query the claim describes
never runs, because the route's single-quoted SQL literal holds raw
newlines — a JavaScript SyntaxError that stops the module from loading;
the intended query modelled from the spec does behave as claimed: it
returns at most 100 rows and the rows in the 200 response are ordered by
the timestamp column in descending order. -/
theorem getAll_limit_and_order :
    hasRawLineTerminator listingQueryLiteral = true ∧
    ∀ st : ServiceState,
      (selectRecent st.interactions st.kiosk_locations).length ≤ 100 ∧
      List.Pairwise (fun a b => jle b.timestamp a.timestamp = true)
        (selectRecent st.interactions st.kiosk_locations) ∧
      (handle (.getAll none) st).response =
        { status := 200, body := .rows (selectRecent st.interactions st.kiosk_locations) } := by
  refine ⟨by decide, fun st => ⟨List.length_take_le 100 _, ?_, rfl⟩⟩
  exact List.Pairwise.sublist (List.take_sublist 100 _) (tsSortedDesc_sortByTsDesc _)

/-! ### Left-join lemmas for the listing query -/

/-- Every row the join produces for the interaction `i` keeps the columns
of `i`, and its friendly name is that of a location matching `i`'s kiosk,
or `NULL` exactly when no location matches. -/
theorem mem_leftJoinRow_friendly {locs : List KioskLocation} {i : InteractionRow}
    {r : OutRow} (h : r ∈ leftJoinRow locs i) :
    r.screen = i.screen ∧ r.action = i.action ∧ r.timestamp = i.timestamp ∧
    r.kiosk_id = i.kiosk_id ∧
    ((r.friendly_name = none ∧ ∀ k ∈ locs, k.kiosk_id ≠ i.kiosk_id) ∨
     (∃ k ∈ locs, k.kiosk_id = i.kiosk_id ∧ r.friendly_name = some k.friendly_name)) := by
  unfold leftJoinRow at h
  cases hm : matchingLocations locs i.kiosk_id with
  | nil =>
    rw [hm] at h
    rcases List.mem_singleton.mp h with rfl
    refine ⟨rfl, rfl, rfl, rfl, Or.inl ⟨rfl, ?_⟩⟩
    have := List.filter_eq_nil_iff.mp hm
    intro k hk
    simpa using this k hk
  | cons m ms =>
    rw [hm] at h
    rcases List.mem_map.mp h with ⟨k, hk, rfl⟩
    rw [← hm] at hk
    rcases List.mem_filter.mp hk with ⟨hkl, hkid⟩
    exact ⟨rfl, rfl, rfl, rfl, Or.inr ⟨k, hkl, by simpa using hkid, rfl⟩⟩

/-- The joined row a matching location contributes is in the join output. -/
theorem matched_row_mem_leftJoin {ints : List InteractionRow}
    {locs : List KioskLocation} {i : InteractionRow} {k : KioskLocation}
    (hi : i ∈ ints) (hk : k ∈ locs) (hid : k.kiosk_id = i.kiosk_id) :
    ({ screen := i.screen, action := i.action, timestamp := i.timestamp,
       kiosk_id := i.kiosk_id, friendly_name := some k.friendly_name } : OutRow) ∈
      leftJoin ints locs := by
  refine List.mem_flatMap.mpr ⟨i, hi, ?_⟩
  unfold leftJoinRow
  have hkm : k ∈ matchingLocations locs i.kiosk_id :=
    List.mem_filter.mpr ⟨hk, by simpa using hid⟩
  cases hm : matchingLocations locs i.kiosk_id with
  | nil => rw [hm] at hkm; cases hkm
  | cons m ms =>
    rw [hm] at hkm
    exact List.mem_map.mpr ⟨k, hkm, rfl⟩

/-- An interaction with no matching location still contributes a row, its
friendly name `NULL`: the left join drops nothing. -/
theorem unmatched_row_mem_leftJoin {ints : List InteractionRow}
    {locs : List KioskLocation} {i : InteractionRow} (hi : i ∈ ints)
    (hno : ∀ k ∈ locs, k.kiosk_id ≠ i.kiosk_id) :
    ({ screen := i.screen, action := i.action, timestamp := i.timestamp,
       kiosk_id := i.kiosk_id, friendly_name := none } : OutRow) ∈
      leftJoin ints locs := by
  refine List.mem_flatMap.mpr ⟨i, hi, ?_⟩
  unfold leftJoinRow
  have hm : matchingLocations locs i.kiosk_id = [] := by
    refine List.filter_eq_nil_iff.mpr ?_
    intro k hk
    simpa using hno k hk
  rw [hm]
  exact List.mem_singleton.mpr rfl

/-- Rows of the final result set all come from the join. -/
theorem mem_leftJoin_of_mem_selectRecent {ints : List InteractionRow}
    {locs : List KioskLocation} {r : OutRow}
    (h : r ∈ selectRecent ints locs) : r ∈ leftJoin ints locs := by
  unfold selectRecent at h
  exact mem_sortByTsDesc.mp (List.mem_of_mem_take h)

/-- C5 (code bug in the `GET /all` route): the LEFT JOIN the claim
describes never executes, because the route's single-quoted SQL literal
holds raw newlines — a JavaScript SyntaxError that stops the module from
loading; against the intended query modelled from the spec the claimed
semantics do hold: for every returned row a matching `kiosk_locations`
row makes it carry that row's `friendly_name`, with no match the friendly
name is `NULL`, and the join drops no interaction — one without a match
still contributes its row (with `NULL` name), one with a match
contributes the enriched row. -/
theorem getAll_left_join_semantics :
    hasRawLineTerminator listingQueryLiteral = true ∧
    ∀ st : ServiceState,
    (∀ r ∈ selectRecent st.interactions st.kiosk_locations,
       ((∃ k ∈ st.kiosk_locations, k.kiosk_id = r.kiosk_id) →
          ∃ k ∈ st.kiosk_locations, k.kiosk_id = r.kiosk_id ∧
            r.friendly_name = some k.friendly_name) ∧
       ((∀ k ∈ st.kiosk_locations, k.kiosk_id ≠ r.kiosk_id) →
          r.friendly_name = none)) ∧
    (∀ i ∈ st.interactions, ∀ k ∈ st.kiosk_locations, k.kiosk_id = i.kiosk_id →
       ({ screen := i.screen, action := i.action, timestamp := i.timestamp,
          kiosk_id := i.kiosk_id, friendly_name := some k.friendly_name } : OutRow) ∈
         leftJoin st.interactions st.kiosk_locations) ∧
    (∀ i ∈ st.interactions, (∀ k ∈ st.kiosk_locations, k.kiosk_id ≠ i.kiosk_id) →
       ({ screen := i.screen, action := i.action, timestamp := i.timestamp,
          kiosk_id := i.kiosk_id, friendly_name := none } : OutRow) ∈
         leftJoin st.interactions st.kiosk_locations) := by
  refine ⟨by decide, fun st =>
    ⟨?_, fun i hi k hk hid => matched_row_mem_leftJoin hi hk hid,
     fun i hi hno => unmatched_row_mem_leftJoin hi hno⟩⟩
  intro r hr
  have hj := mem_leftJoin_of_mem_selectRecent hr
  rcases List.mem_flatMap.mp hj with ⟨i, _, hri⟩
  obtain ⟨-, -, -, hkid, hchar⟩ := mem_leftJoinRow_friendly hri
  constructor
  · intro ⟨k0, hk0, hk0id⟩
    rcases hchar with ⟨-, hno⟩ | ⟨k, hk, hid, hfn⟩
    · exact absurd (hk0id.trans hkid) (hno k0 hk0)
    · exact ⟨k, hk, hid.trans hkid.symm, hfn⟩
  · intro hno
    rcases hchar with ⟨hfn, -⟩ | ⟨k, hk, hid, -⟩
    · exact hfn
    · exact absurd (hid.trans hkid.symm) (hno k hk)

/-! ### Append-only lifecycle of the interaction store -/

/-- One handled request leaves `kiosk_locations` untouched and either
leaves `interactions` untouched or appends exactly one row at the end. -/
theorem handle_interactions_step (req : Request) (st : ServiceState) :
    (handle req st).state.kiosk_locations = st.kiosk_locations ∧
    ((handle req st).state.interactions = st.interactions ∨
     ∃ row, (handle req st).state.interactions = st.interactions ++ [row]) := by
  cases req with
  | postLog body f =>
    cases f with
    | none =>
      simp only [handle, postLog, insertInteraction]
      split
      · exact ⟨rfl, Or.inl rfl⟩
      · exact ⟨rfl, Or.inr ⟨_, rfl⟩⟩
    | some e =>
      simp only [handle, postLog, insertInteraction]
      split
      · exact ⟨rfl, Or.inl rfl⟩
      · exact ⟨rfl, Or.inl rfl⟩
  | getRoot => exact ⟨rfl, Or.inl rfl⟩
  | getAll f => cases f <;> exact ⟨rfl, Or.inl rfl⟩

/-- A whole request sequence only ever appends interaction rows and never
touches the kiosk metadata. -/
theorem runRequests_interactions_extend (reqs : List Request) (st : ServiceState) :
    ∃ tail, (runRequests reqs st).interactions = st.interactions ++ tail ∧
            (runRequests reqs st).kiosk_locations = st.kiosk_locations := by
  induction reqs generalizing st with
  | nil => exact ⟨[], by simp [runRequests], rfl⟩
  | cons r rs ih =>
    obtain ⟨hk, hstep⟩ := handle_interactions_step r st
    obtain ⟨tail, htail, hk2⟩ := ih (handle r st).state
    rcases hstep with heq | ⟨row, heq⟩
    · exact ⟨tail, by rw [runRequests, htail, heq], by rw [runRequests, hk2, hk]⟩
    · refine ⟨row :: tail, ?_, by rw [runRequests, hk2, hk]⟩
      rw [runRequests, htail, heq, List.append_assoc]
      rfl

/-- C9: the only write the service ever performs on the interaction store
is the single insert of `POST /log`: each handled request leaves
`interactions` unchanged or appends one row, and across any sequence of
requests the prior contents survive unchanged, in place, with new rows
only appended after them. -/
theorem service_store_append_only :
    (∀ (req : Request) (st : ServiceState),
        (handle req st).state.kiosk_locations = st.kiosk_locations ∧
        ((handle req st).state.interactions = st.interactions ∨
         ∃ row, (handle req st).state.interactions = st.interactions ++ [row])) ∧
    (∀ (reqs : List Request) (st : ServiceState),
        ∃ tail, (runRequests reqs st).interactions = st.interactions ++ tail) :=
  ⟨handle_interactions_step,
   fun reqs st => (runRequests_interactions_extend reqs st).imp fun _ h => h.1⟩

/-! ### Validation gate and insensitivity to extra body properties -/

/-- C10: two `POST /log` bodies that agree on the values read for
`screen`, `action`, `timestamp` and `kioskId` are handled identically,
whatever else they contain: same validation outcome, same inserted
parameters, same response, same console output — extra properties are
ignored and never persisted. -/
theorem postLog_ignores_extra_fields (b1 b2 : ReqBody) (f : Option String)
    (st : ServiceState)
    (hs : getField b1 "screen" = getField b2 "screen")
    (ha : getField b1 "action" = getField b2 "action")
    (ht : getField b1 "timestamp" = getField b2 "timestamp")
    (hk : getField b1 "kioskId" = getField b2 "kioskId") :
    handle (.postLog b1 f) st = handle (.postLog b2 f) st := by
  simp only [handle, postLog, hs, ha, ht, hk]

/-- Witness for C10: a body with an extra `sessionId` property behaves
exactly like the same body without it. -/
theorem postLog_ignores_extra_fields_witness :
    handle (.postLog [("screen", jStr "home"), ("action", jStr "tap"),
        ("timestamp", jStr "2024-01-01T00:00:00Z"), ("kioskId", jStr "k1"),
        ("sessionId", jStr "abc123")] none)
      { interactions := [], kiosk_locations := [] } =
    handle (.postLog [("screen", jStr "home"), ("action", jStr "tap"),
        ("timestamp", jStr "2024-01-01T00:00:00Z"), ("kioskId", jStr "k1")] none)
      { interactions := [], kiosk_locations := [] } :=
  postLog_ignores_extra_fields
    [("screen", jStr "home"), ("action", jStr "tap"),
     ("timestamp", jStr "2024-01-01T00:00:00Z"), ("kioskId", jStr "k1"),
     ("sessionId", jStr "abc123")]
    [("screen", jStr "home"), ("action", jStr "tap"),
     ("timestamp", jStr "2024-01-01T00:00:00Z"), ("kioskId", jStr "k1")]
    none { interactions := [], kiosk_locations := [] }
    (by decide) (by decide) (by decide) (by decide)

/-- C7: a `POST /log` request is rejected with the 400 "Missing required
fields" outcome exactly when not all four of `screen`, `action`,
`timestamp`, `kioskId` read as truthy, so the insert is attempted if and
only if all four are truthy; a present-but-falsy field — empty string,
numeric 0, `false` or `null` — counts as missing. -/
theorem postLog_accepts_iff_truthy :
    (∀ (body : ReqBody) (f : Option String) (st : ServiceState),
        handle (.postLog body f) st =
            { response := { status := 400, body := .obj "error" "Missing required fields" },
              state := st, consoleErrors := [] } ↔
          ¬(truthy (getField body "screen") = true ∧
            truthy (getField body "action") = true ∧
            truthy (getField body "timestamp") = true ∧
            truthy (getField body "kioskId") = true)) ∧
    truthy (jStr "") = false ∧ truthy (jNum 0) = false ∧
    truthy (jBool false) = false ∧ truthy jNull = false := by
  refine ⟨?_, rfl, by decide, rfl, rfl⟩
  intro body f st
  by_cases hs : truthy (getField body "screen") = true <;>
    by_cases ha : truthy (getField body "action") = true <;>
      by_cases ht : truthy (getField body "timestamp") = true <;>
        by_cases hk : truthy (getField body "kioskId") = true <;>
          cases f <;>
            simp [handle, postLog, insertInteraction, hs, ha, ht, hk]
